import Mathlib

set_option maxRecDepth 8000

/-!
# Verification of the Collega finance assistant's intent-routing core

A shallow embedding of `src/services/agent_service.py` (ticker extraction,
fuzzy company matching, intent routing, tool dispatch, agent orchestration,
financial-query classification) together with the `limit` clamp of
`get_top_stocks_by_market_cap` from `src/services/sectors_tools.py`.

Modelling conventions:
* Python strings are Lean `String`s, manipulated as `List Char`; the texts
  involved are ASCII so `Char.toLower`/`Char.toUpper` coincide with
  Python's `str.lower`/`str.upper` on them.
* The regular expressions used by the source
  (`\b([A-Z]{4})\b`, `\b(\d+)\b`, `(?:quarter|q|kuartal)\s*(\d)`, `20\d{2}`)
  are embedded as explicit leftmost-match scanners with the same semantics.
* Python float scores (`difflib.SequenceMatcher.ratio`) are modelled as
  exact rationals `ℚ`; at the magnitudes occurring here (ratios of small
  integers compared against 0.7 and 0.85) rational and double-precision
  comparison agree.
* The external LLM completion service and the financial-data tools are
  oracles (function parameters); a raised Python exception is `Except.error`.
* `datetime.now().year` is an explicit input `nowYear`.
* Python early-`return` control flow is expressed with nested
  `match`/`if`; truthiness of `Optional[int]` values (where `0` is falsy)
  is made explicit via `optIntTruthy`.
-/

/-- Python `\s` (ASCII range): the whitespace class used by `str.split()`
and the `\s*` in the quarter regex. -/
def pyIsSpace (c : Char) : Bool :=
  c = ' ' || c = '\t' || c = '\n' || c = '\x0d' || c = '\x0b' || c = '\x0c'

/-- Python regex `\w` (ASCII range): letters, digits, underscore. -/
def isWordChar (c : Char) : Bool :=
  c.isAlpha || c.isDigit || c = '_'

/-- The character class `[A-Z]` of the explicit-ticker regex. -/
def isUpperAZ (c : Char) : Bool :=
  'A' ≤ c && c ≤ 'Z'

/-- A `\b` word boundary holds before the current position when the
previous character (if any) is not a word character. -/
def boundaryBefore : Option Char → Bool
  | none => true
  | some p => !isWordChar p

/-- A `\b` word boundary holds after a match when the following text is
empty or starts with a non-word character. -/
def boundaryAfter : List Char → Bool
  | [] => true
  | c :: _ => !isWordChar c

/-- Python's substring test `needle in hay` (contiguous; the empty
string is a substring of everything). -/
def isSubstrOf (needle : List Char) : List Char → Bool
  | [] => needle.isEmpty
  | l@(_ :: rest) => needle.isPrefixOf l || isSubstrOf needle rest

/-- Python `str.lower()` (ASCII; structural, so it reduces in the
kernel, unlike `String.toLower`). -/
def pyLower (s : String) : String :=
  String.mk (s.toList.map Char.toLower)

/-- Python `str.upper()` (ASCII). -/
def pyUpper (s : String) : String :=
  String.mk (s.toList.map Char.toUpper)

/-- Python `s.startswith(pre)`. -/
def pyStartsWith (s pre : String) : Bool :=
  pre.toList.isPrefixOf s.toList

/-- Helper for `pySplit`: accumulates the current word (reversed). -/
def pySplitAux : List Char → List Char → List (List Char)
  | [], acc => if acc.isEmpty then [] else [acc.reverse]
  | c :: cs, acc =>
    if pyIsSpace c then
      if acc.isEmpty then pySplitAux cs [] else acc.reverse :: pySplitAux cs []
    else pySplitAux cs (c :: acc)

/-- Python `str.split()` with no argument: split on whitespace runs,
discarding empty pieces. -/
def pySplit (s : String) : List String :=
  (pySplitAux s.toList []).map String.mk

/-- Numeric value of a digit string, as Python `int()` reads it. -/
def digitsToNat (l : List Char) : Nat :=
  l.foldl (fun acc c => acc * 10 + (c.toNat - '0'.toNat)) 0

/-- Leftmost match of `\b([A-Z]{4})\b` (scanning with the previous
character for the left boundary), as in `re.search` at
agent_service.py line 157. -/
def findFourUpperAux : Option Char → List Char → Option String
  | prev, a :: b :: c :: d :: rest =>
    if boundaryBefore prev && isUpperAZ a && isUpperAZ b && isUpperAZ c
        && isUpperAZ d && boundaryAfter rest then
      some (String.mk [a, b, c, d])
    else
      findFourUpperAux (some a) (b :: c :: d :: rest)
  | _, _ => none

def findFourUpper (l : List Char) : Option String :=
  findFourUpperAux none l

/-- Leftmost match of `\b(\d+)\b` (agent_service.py line 226): a maximal
digit run delimited by word boundaries.  A digit run glued to a word
character on either side cannot match at any position inside the run, so
advancing one character at a time is exact. -/
def findFirstIntAux : Option Char → List Char → Option Nat
  | _, [] => none
  | prev, c :: cs =>
    if boundaryBefore prev && c.isDigit then
      let run := (c :: cs).takeWhile Char.isDigit
      let rest := (c :: cs).dropWhile Char.isDigit
      if boundaryAfter rest then some (digitsToNat run)
      else findFirstIntAux (some c) cs
    else findFirstIntAux (some c) cs

def findFirstInt (l : List Char) : Option Nat :=
  findFirstIntAux none l

/-- Leftmost match of `20\d{2}` (agent_service.py line 252): no word
boundaries, just the literal `20` followed by two digits. -/
def findYear : List Char → Option Nat
  | [] => none
  | a :: rest =>
    match a, rest with
    | '2', '0' :: c :: d :: _ =>
      if c.isDigit && d.isDigit then
        some (2000 + (c.toNat - '0'.toNat) * 10 + (d.toNat - '0'.toNat))
      else findYear rest
    | _, _ => findYear rest

/-- One alternative of `(?:quarter|q|kuartal)\s*(\d)`: keyword prefix at
the current position, then greedy whitespace, then a digit.  Fewer
whitespace characters can never help (the next character would again be
whitespace), so skipping the whole run is exact backtracking. -/
def matchKwDigit (kw : List Char) (l : List Char) : Option Nat :=
  if kw.isPrefixOf l then
    match (l.drop kw.length).dropWhile pyIsSpace with
    | c :: _ => if c.isDigit then some (c.toNat - '0'.toNat) else none
    | [] => none
  else none

/-- Leftmost match of `(?:quarter|q|kuartal)\s*(\d)` (agent_service.py
line 247), trying the alternatives in the regex's order at each
position. -/
def findQuarter : List Char → Option Nat
  | [] => none
  | l@(_ :: rest) =>
    match ["quarter".toList, "q".toList, "kuartal".toList].findSome?
        (fun kw => matchKwDigit kw l) with
    | some n => some n
    | none => findQuarter rest

/-- Python truthiness of an `Optional[int]`: `None` and `0` are falsy. -/
def optIntTruthy : Option Nat → Bool
  | some n => n != 0
  | none => false

/-! ## difflib.SequenceMatcher (no junk: both strings are far below the
autojunk threshold of 200 characters) -/

/-- Length of the common prefix of two character lists. -/
def commonPrefixLen : List Char → List Char → Nat
  | c :: cs, d :: ds => if c = d then commonPrefixLen cs ds + 1 else 0
  | _, _ => 0

/-- `SequenceMatcher.find_longest_match` over full ranges: the longest
contiguous common block, ties broken by earliest start in `a`, then
earliest start in `b` (the documented difflib contract; replacement only
on a strictly larger block while scanning `i` then `j` in increasing
order realises exactly that tie-break). -/
def longestMatch (a b : List Char) : Nat × Nat × Nat :=
  (List.range a.length).foldl
    (fun best i =>
      (List.range b.length).foldl
        (fun best j =>
          let k := commonPrefixLen (a.drop i) (b.drop j)
          if k > best.2.2 then (i, j, k) else best)
        best)
    (0, 0, 0)

/-- Total size of all matching blocks
(`sum of k over SequenceMatcher.get_matching_blocks`): recursively take
the longest block and recurse on the pieces to its left and right.  The
first argument is recursion fuel; every recursive call strictly
decreases the combined length, so fuel `a.length + b.length` makes the
function total with the intended value. -/
def matchTotal : Nat → List Char → List Char → Nat
  | 0, _, _ => 0
  | fuel + 1, a, b =>
    let m := longestMatch a b
    let i := m.1
    let j := m.2.1
    let k := m.2.2
    if k = 0 then 0
    else
      matchTotal fuel (a.take i) (b.take j) + k
        + matchTotal fuel (a.drop (i + k)) (b.drop (j + k))

/-- `SequenceMatcher(None, a, b).ratio()` = `2 * M / (len(a) + len(b))`,
and 1.0 when both strings are empty. -/
def simScore (a b : List Char) : ℚ :=
  let t := a.length + b.length
  if t = 0 then mkRat 1 1
  else mkRat (2 * (matchTotal t a b : Int)) t

/-! ## Data model -/

/-- A cached company record as consumed by `find_ticker_by_name`
(fields `company_name` and `symbol` of the provider's JSON). -/
structure Company where
  company_name : String
  symbol : String
deriving DecidableEq, Repr

/-- A LangChain conversation turn (`HumanMessage` / `AIMessage`; any
other message class is `other`). -/
inductive Msg where
  | human (content : String)
  | ai (content : String)
  | other (content : String)
deriving DecidableEq, Repr

/-- A value of the parameter mapping returned by the intent router:
Python `int`, `str` or `None`. -/
inductive PVal where
  | num (n : Nat)
  | str (s : String)
  | noneV
deriving DecidableEq, Repr

/-- `Optional[int]` as a parameter value. -/
def PVal.ofOpt : Option Nat → PVal
  | some n => .num n
  | none => .noneV

/-- The parameter mapping of an intent decision, in the key order of the
Python dict literal that produced it. -/
abbrev Params := List (String × PVal)

/-! ## find_ticker_by_name (agent_service.py lines 87-121) -/

/-- Python `str.strip()` on ASCII whitespace. -/
def pyStrip (s : String) : String :=
  String.mk (((s.toList.dropWhile pyIsSpace).reverse.dropWhile pyIsSpace).reverse)

/-- The company loop of `find_ticker_by_name`, carrying
`(best_match, best_score)`.  `Sum.inl` models the early
`return ticker` on an exact (case-insensitive) symbol match. -/
def findTickerLoop (nameL : List Char) :
    List Company → Option String × ℚ → String ⊕ (Option String × ℚ)
  | [], best => .inr best
  | c :: rest, best =>
    let nm := (pyLower c.company_name).toList
    let tk := c.symbol
    if (pyLower tk).toList = nameL then .inl tk
    else
      let score0 := simScore nameL nm
      -- Python max(score, 0.85): keep score when it is at least 0.85
      let score := if isSubstrOf nameL nm && Rat.blt score0 (mkRat 85 100) then
        mkRat 85 100 else score0
      if Rat.blt best.2 score then findTickerLoop nameL rest (some tk, score)
      else findTickerLoop nameL rest best

/-- `find_ticker_by_name(company_name)`: fuzzy ticker lookup over the
cached company list (passed explicitly here instead of through the
module-level `_COMPANY_CACHE`).  Accepts the best match only when its
score strictly exceeds 0.7. -/
def find_ticker_by_name (companies : List Company) (company_name : String) :
    Option String :=
  if company_name.toList = [] then none
  else if companies.isEmpty then none
  else
    let nameL := (pyStrip (pyLower company_name)).toList
    match findTickerLoop nameL companies (none, mkRat 0 1) with
    | .inl tk => some tk
    | .inr best => if Rat.blt (mkRat 7 10) best.2 then best.1 else none

/-! ## extract_ticker (agent_service.py lines 124-187) -/

/-- The `quick_map` alias table, in dict insertion order. -/
def quickMap : List (String × String) :=
  [("bca", "BBCA"), ("bank bca", "BBCA"), ("pt bank central asia", "BBCA"),
   ("bri", "BBRI"), ("bank bri", "BBRI"), ("bank rakyat indonesia", "BBRI"),
   ("mandiri", "BMRI"), ("bank mandiri", "BMRI"),
   ("telkom", "TLKM"), ("telkomsel", "TLKM"),
   ("astra", "ASII"),
   ("goto", "GOTO"), ("gojek", "GOTO"), ("tokopedia", "GOTO"),
   ("bukalapak", "BUKA"), ("buka", "BUKA"),
   ("unilever", "UNVR"), ("indofood", "INDF"), ("adaro", "ADRO")]

/-- First alias key that is a substring of the lowercased text wins. -/
def aliasLookup (textLower : List Char) : Option String :=
  quickMap.findSome? fun kv =>
    if isSubstrOf kv.1.toList textLower then some kv.2 else none

/-- Stoplist of common 4-letter Indonesian words (the source also lists
the 3-letter "INI", which the 4-letter regex can never produce). -/
def commonWords : List String :=
  ["DARI", "YANG", "AKAN", "INFO", "DATA", "HARI", "SAYA", "BANK",
   "JUGA", "ATAU", "KATA", "BISA", "MANA", "INI"]

/-- Candidate company names for the fuzzy stage: capitalized words
longer than 3 characters, followed by all 1-to-3-word windows whose
joined text is longer than 3 characters. -/
def candidateNames (text : String) : List String :=
  let words := pySplit text
  let singles := words.filter fun w => w.length > 3 && (w.toList.headD ' ').isUpper
  let phrases := (List.range words.length).flatMap fun i =>
    (List.range' (i + 1) (min (i + 4) (words.length + 1) - (i + 1))).filterMap fun j =>
      let phrase := String.intercalate " " ((words.drop i).take (j - i))
      if phrase.length > 3 then some phrase else none
  singles ++ phrases

/-- `extract_ticker(text)`: alias table, then the explicit 4-letter
uppercase token heuristic (abandoned entirely if the first regex match
is a stoplisted word), then fuzzy lookup of each candidate name against
the cached company list. -/
def extract_ticker (companies : List Company) (text : String) : Option String :=
  let text_lower := pyLower text
  match aliasLookup text_lower.toList with
  | some tk => some tk
  | none =>
    let explicitHit : Option String :=
      match findFourUpper (pyUpper text).toList with
      | some tok => if commonWords.contains tok then none else some tok
      | none => none
    match explicitHit with
    | some tk => some tk
    | none => (candidateNames text).findSome? (find_ticker_by_name companies)

/-! ## detect_intent_and_route (agent_service.py lines 190-312) -/

/-- `detect_intent_and_route(user_input, chat_history)`.  `companies` is
the Entity Cache state consulted by `extract_ticker`; `nowYear` is
`datetime.now().year`; `chat_history` is accepted (as in the source
signature) but never read by the body. -/
def detect_intent_and_route (companies : List Company) (nowYear : Nat)
    (user_input : String) (chat_history : List Msg) : String × Params :=
  let _ := chat_history
  let tl := (pyLower user_input).toList
  let ticker := extract_ticker companies user_input
  let top_words := ["top", "terbesar", "tertinggi", "ranking", "papan atas"]
  let mcap_words := ["market cap", "kapitalisasi", "nilai pasar"]
  let entity_words := ["perusahaan", "saham", "emiten"]
  let is_top_request := top_words.any fun w => isSubstrOf w.toList tl
  let is_mcap_context := mcap_words.any fun w => isSubstrOf w.toList tl
  let is_entity_context := entity_words.any fun w => isSubstrOf w.toList tl
  if is_top_request && (is_mcap_context || is_entity_context) then
    let number : Nat :=
      match findFirstInt user_input.toList with
      | some n => min n 50
      | none => 5
    ("top_market_cap", [("limit", PVal.num number)])
  else
    match ticker with
    | some tk =>
      -- The source returns quarterly_financials from inside the
      -- quarterly-keyword branch when `quarter or year` is truthy and
      -- otherwise falls through to the remaining checks; `quarter` and
      -- `year` are pure, so hoisting them and guarding the return by the
      -- conjunction is the same function.
      let quarter := findQuarter tl
      let year : Option Nat :=
        match findYear user_input.toList with
        | some y => some y
        | none => if optIntTruthy quarter then some nowYear else none
      if (["quarter", "kuartal", "q1", "q2", "q3", "q4", "quarterly",
            "triwulan"] : List String).any (fun w => isSubstrOf w.toList tl)
          && (optIntTruthy quarter || optIntTruthy year) then
        ("quarterly_financials",
         [("ticker", PVal.str tk), ("quarter", PVal.ofOpt quarter),
          ("year", PVal.ofOpt year)])
      else
        if (["segmen", "segment", "bisnis", "breakdown", "pembagian"] :
            List String).any (fun w => isSubstrOf w.toList tl) then
          ("company_segments", [("ticker", PVal.str tk)])
        else if (["berita", "news", "kabar"] : List String).any
            (fun w => isSubstrOf w.toList tl) then
          ("market_news", [("query", PVal.str tk), ("limit", PVal.num 10)])
        else
          ("stock_info", [("ticker", PVal.str tk)])
    | none =>
      if (["berita", "news", "kabar"] : List String).any
          (fun w => isSubstrOf w.toList tl) then
        ("market_news", [("query", PVal.noneV), ("limit", PVal.num 10)])
      else
        match (["lq45", "lq 45", "idx30", "idx 30", "kompas100"] :
            List String).findSome?
            (fun kw => if isSubstrOf kw.toList tl then some kw else none) with
        | some kw =>
          ("companies_by_index",
           -- keyword.replace(" ", "").upper()
           [("index", PVal.str (pyUpper (String.mk (kw.toList.filter (fun c => c != ' '))))),
            ("limit", PVal.num 20)])
        | none =>
          match ([("bank", "banks"), ("banking", "banks"), ("perbankan", "banks"),
                  ("telekomunikasi", "telecommunication"), ("energi", "energy"),
                  ("tambang", "mining")] : List (String × String)).findSome?
              (fun p => if isSubstrOf p.1.toList tl then some p.2 else none) with
          | some sub =>
            if (["laporan", "report", "analisis"] : List String).any
                (fun w => isSubstrOf w.toList tl) then
              ("subsector_report", [("subsector", PVal.str sub)])
            else
              ("companies_subsector", [("subsector", PVal.str sub), ("limit", PVal.num 20)])
          | none => ("unknown", [])

/-! ## execute_tool (agent_service.py lines 315-372) -/

/-- The financial-data operations dispatched by `execute_tool`, as
oracles: each models one `<tool>.invoke(params)` call, and
`Except.error` models a raised Python exception. -/
structure ToolSet where
  get_stock_info : Params → Except String String
  get_quarterly_financials : Params → Except String String
  get_company_segments : Params → Except String String
  get_market_news : Params → Except String String
  get_top_stocks_by_market_cap : Params → Except String String
  get_companies_by_index : Params → Except String String
  get_companies_by_subsector : Params → Except String String
  get_subsector_report : Params → Except String String
  get_idx_market_cap_history : Params → Except String String

/-- The fixed intent-tag → operation dispatch table realised by the
`if`/`elif` chain of `execute_tool`, in source order. -/
def dispatchFor (tools : ToolSet) (intent : String) :
    Option (Params → Except String String) :=
  if intent = "stock_info" then some tools.get_stock_info
  else if intent = "quarterly_financials" then some tools.get_quarterly_financials
  else if intent = "company_segments" then some tools.get_company_segments
  else if intent = "market_news" then some tools.get_market_news
  else if intent = "top_market_cap" then some tools.get_top_stocks_by_market_cap
  else if intent = "companies_by_index" then some tools.get_companies_by_index
  else if intent = "companies_subsector" then some tools.get_companies_by_subsector
  else if intent = "subsector_report" then some tools.get_subsector_report
  else if intent = "idx_market_cap_history" then some tools.get_idx_market_cap_history
  else none

/-- `execute_tool(intent, params)`: dispatch through the table and
invoke the operation; the surrounding `try`/`except` converts any raised
exception to `None`, and an unknown intent also yields `None`. -/
def execute_tool (tools : ToolSet) (intent : String) (params : Params) :
    Option String :=
  match dispatchFor tools intent with
  | some op =>
    match op params with
    | .ok result => some result
    | .error _ => none
  | none => none

/-- The `limit = max(1, min(limit, 50))` clamp applied inside
`get_top_stocks_by_market_cap` (sectors_tools.py line 71) before the
provider is called. -/
def topToolLimitClamp (limit : Int) : Int :=
  max 1 (min limit 50)

/-! ## resolve_query_with_context and run_agent
(agent_service.py lines 375-441 and 492-541) -/

/-- `resolve_query_with_context(user_input, chat_history)`.  `resolver`
is an oracle for the LLM round-trip (prompt construction from the last 5
turns plus `get_chat_response`); its exception falls back to the
original text, its answer is `.strip()`-ed. -/
def resolve_query_with_context (resolver : String → List Msg → Except String String)
    (user_input : String) (chat_history : List Msg) : String :=
  if chat_history.length < 2 then user_input
  else
    match resolver user_input chat_history with
    | .ok r => pyStrip r
    | .error _ => user_input

/-- `run_agent(user_input, chat_history, rag_context)`.  `narrator` is
an oracle for the Response Composer's completion call (system prompt
built from the original question, the resolved query, the raw tool
payload, the RAG context and the last 5 history turns, then
`get_chat_response`); the outer `try`/`except` converts its exception to
`None`.  A tool result that is `None`, empty (falsy) or an error-marker
string starting with "❌" falls through to the final `return None`. -/
def run_agent (companies : List Company) (nowYear : Nat) (tools : ToolSet)
    (resolver : String → List Msg → Except String String)
    (narrator : String → String → String → String → List Msg → Except String String)
    (user_input : String) (chat_history : List Msg) (rag_context : String) :
    Option String :=
  let resolved_query := resolve_query_with_context resolver user_input chat_history
  let ip := detect_intent_and_route companies nowYear resolved_query chat_history
  if ip.1 != "unknown" then
    match execute_tool tools ip.1 ip.2 with
    | some tool_result =>
      if tool_result != "" && !(pyStartsWith tool_result "❌") then
        match narrator user_input resolved_query tool_result rag_context chat_history with
        | .ok response => some response
        | .error _ => none
      else none
    | none => none
  else none

/-! ## is_financial_query (agent_service.py lines 443-489) -/

/-- The fixed keyword list of `is_financial_query`, in source order. -/
def specificFinancialTerms : List String :=
  ["saham", "stock", "emiten", "ticker", "ihsg", "idx", "bursa",
   "per", "pbv", "roe", "roa", "market cap", "kapitalisasi",
   "gainer", "loser", "volume", "transaksi",
   "bbca", "bbri", "bmri", "tlkm", "asii", "unvr", "goto", "buka",
   "adro", "indf", "icbp", "klbf", "eraa", "antm", "ptba",
   "bank bca", "bank bri", "bank mandiri", "bank rakyat",
   "lq45", "lq 45", "idx30", "kompas100",
   "perbankan", "telekomunikasi", "tambang", "properti", "energi",
   "berita saham", "info saham", "harga saham",
   "finansial", "financial", "laporan", "quarter", "kuartal"]

/-- The context-ticker scan: the last 5 turns, most recent first, first
extracted ticker wins (Human/AI turns only). -/
def contextTickerScan (companies : List Company) (chat_history : List Msg) :
    Option String :=
  ((chat_history.drop (chat_history.length - 5)).reverse).findSome? fun m =>
    match m with
    | .human c => extract_ticker companies c
    | .ai c => extract_ticker companies c
    | .other _ => none

/-- `is_financial_query(user_input, chat_history)`: false when the
provider is unavailable, else an OR of keyword match, direct ticker,
context ticker (searched only when no direct ticker and the history is
non-empty) and a non-unknown routed intent. -/
def is_financial_query (sectorsAvailable : Bool) (companies : List Company)
    (nowYear : Nat) (user_input : String) (chat_history : List Msg) : Bool :=
  if !sectorsAvailable then false
  else
    let tl := (pyLower user_input).toList
    let has_financial_term :=
      specificFinancialTerms.any fun t => isSubstrOf t.toList tl
    let ticker := extract_ticker companies user_input
    let context_ticker :=
      if ticker.isNone && !chat_history.isEmpty then
        contextTickerScan companies chat_history
      else none
    let intent := (detect_intent_and_route companies nowYear user_input chat_history).1
    has_financial_term || ticker.isSome || context_ticker.isSome
      || (intent != "unknown")

/-! ## Spec-side definitions (for refinement comparison) -/

/-- The `limit` the router actually places in the `top_market_cap`
parameters (agent_service.py lines 225-229): the first integer literal
capped at 50, defaulting to 5. -/
def routedTopLimit (text : String) : Nat :=
  match findFirstInt text.toList with
  | some n => min n 50
  | none => 5

/-- Modelled from the spec's words, for comparison with the code: "the
first integer literal in the text as the requested count, clamped to
[1,50], defaulting to 5 if none found" (any number > 50 becomes 50, any
≤ 0 becomes 1). -/
def specClampedLimit (text : String) : Int :=
  match findFirstInt text.toList with
  | some n => max 1 (min (n : Int) 50)
  | none => 5

/-! ## Claim theorems -/

/-- C1 (counterexample): `detect_intent_and_route("halo apa kabar")`
does not return the tag `unknown` with empty parameters: "halo"
uppercases to the ticker-like 4-letter token "HALO" (not in the
stoplist) and "kabar" is a news keyword. -/
theorem detect_halo_not_unknown :
    detect_intent_and_route [] 2025 "halo apa kabar" []
      ≠ ("unknown", ([] : Params)) := by
  decide

/-- C1 (amended): for the input text "halo apa kabar" (with no usable
history, and irrespective of the Entity Cache and the current year),
`detect_intent_and_route` returns the tag `market_news` with parameters
`query = "HALO"` (the extracted explicit ticker) and `limit = 10`. -/
theorem detect_halo_routes_market_news (companies : List Company)
    (nowYear : Nat) (chat_history : List Msg) :
    detect_intent_and_route companies nowYear "halo apa kabar" chat_history
      = ("market_news", [("query", PVal.str "HALO"), ("limit", PVal.num 10)]) :=
  rfl

/-- C6: `detect_intent_and_route("laporan kuartal Q2 2024 BBCA")`
returns `quarterly_financials` with ticker "BBCA" (matched through the
"bca" alias inside "bbca"), quarter 2 and year 2024, for every cache
state, wall-clock year and history. -/
theorem detect_quarterly_bbca (companies : List Company) (nowYear : Nat)
    (chat_history : List Msg) :
    detect_intent_and_route companies nowYear "laporan kuartal Q2 2024 BBCA"
        chat_history
      = ("quarterly_financials",
         [("ticker", PVal.str "BBCA"), ("quarter", PVal.num 2),
          ("year", PVal.num 2024)]) :=
  rfl

/-- C9 (counterexample): two invocations of `detect_intent_and_route`
with the same text, the same (empty) history and the same (empty) cached
company list differ when the wall-clock year differs, because the
quarterly branch defaults the missing year to `datetime.now().year`; so
the function is not pure over inputs plus cache alone. -/
theorem detect_depends_on_clock :
    detect_intent_and_route [] 2024 "kuartal q2 BBCA" []
      ≠ detect_intent_and_route [] 2025 "kuartal q2 BBCA" [] := by
  decide

/-- C9 (amended): `detect_intent_and_route` is deterministic and pure
over its input text, the Entity Cache state and the current wall-clock
year; in particular it never reads the history argument, so any two
invocations agreeing on text, cache and year agree on the result. -/
theorem detect_pure_over_cache_and_clock (companies : List Company)
    (nowYear : Nat) (user_input : String) (h₁ h₂ : List Msg) :
    detect_intent_and_route companies nowYear user_input h₁
      = detect_intent_and_route companies nowYear user_input h₂ :=
  rfl

/-- C7: with an Entity Cache containing the record
{"PT Bank Central Asia", "BBCA"}, `extract_ticker` on
"saham Bank Central Asia gimana?" reaches the fuzzy stage (no alias key
occurs in the text, and the first 4-letter uppercase token "BANK" is
stoplisted) and resolves to "BBCA" by the case-insensitive substring
boost: candidates are tried in order and the first, "Bank", is already a
substring of "pt bank central asia", so its score is boosted to 0.85,
above the 0.70 acceptance threshold (the claim's candidate
"Bank Central Asia" is likewise a substring of the company name, but the
loop accepts "Bank" before reaching it). -/
theorem fuzzy_bank_central_asia :
    aliasLookup (pyLower "saham Bank Central Asia gimana?").toList = none ∧
    findFourUpper (pyUpper "saham Bank Central Asia gimana?").toList
      = some "BANK" ∧
    "BANK" ∈ commonWords ∧
    (candidateNames "saham Bank Central Asia gimana?").headD "" = "Bank" ∧
    isSubstrOf (pyLower "Bank").toList (pyLower "PT Bank Central Asia").toList
      = true ∧
    isSubstrOf (pyLower "Bank Central Asia").toList
      (pyLower "PT Bank Central Asia").toList = true ∧
    find_ticker_by_name [⟨"PT Bank Central Asia", "BBCA"⟩] "Bank"
      = some "BBCA" ∧
    extract_ticker [⟨"PT Bank Central Asia", "BBCA"⟩]
        "saham Bank Central Asia gimana?" = some "BBCA" := by
  decide

/-- C3 (counterexample): the text "top 0 saham" is routed to
`top_market_cap` with limit parameter 0 — `min(0, 50)` — while the
claimed clamp to [1,50] would require 1: the router never floors the
extracted count at 1. -/
theorem top_limit_not_floored_at_one :
    detect_intent_and_route [] 2024 "top 0 saham" []
      = ("top_market_cap", [("limit", PVal.num 0)]) ∧
    specClampedLimit "top 0 saham" = 1 ∧ PVal.num 0 ≠ PVal.num 1 := by
  decide

/-- C4 (counterexample): "DARI KLBF" contains the 4-letter uppercase
word "KLBF", which is neither stoplisted nor an alias key, yet
`extract_ticker` (here with an empty cache) returns nothing: the
explicit-ticker heuristic only examines the first regex match, "DARI",
and abandons the stage when that match is stoplisted. -/
theorem explicit_ticker_claim_fails :
    "KLBF" ∈ pySplit "DARI KLBF" ∧
    "KLBF".length = 4 ∧ "KLBF".toList.all isUpperAZ = true ∧
    "KLBF" ∉ commonWords ∧
    aliasLookup (pyLower "DARI KLBF").toList = none ∧
    extract_ticker [] "DARI KLBF" = none := by
  decide

/-- C4 (amended): for every text whose lowercased form contains no alias
key and whose uppercased form's first word-boundary-delimited 4-letter
uppercase token is not stoplisted, `extract_ticker` returns that token —
regardless of the Entity Cache, which the first two stages never
consult. -/
theorem explicit_ticker_first_token (companies : List Company) (text tok : String)
    (halias : aliasLookup (pyLower text).toList = none)
    (hfour : findFourUpper (pyUpper text).toList = some tok)
    (hstop : commonWords.contains tok = false) :
    extract_ticker companies text = some tok := by
  simp only [extract_ticker, halias, hfour, hstop]
  simp

/-- Witness for `explicit_ticker_first_token` at the input
"cek KLBF dong" with an empty cache. -/
theorem explicit_ticker_first_token_witness :
    extract_ticker [] "cek KLBF dong" = some "KLBF" :=
  explicit_ticker_first_token [] "cek KLBF dong" "KLBF"
    (by decide) (by decide) (by decide)

/-- C5: whenever the provider is available, any text/history that
`detect_intent_and_route` maps to a non-unknown tag is classified as a
financial query — the classifier's final disjunct is exactly the routed
intent being non-unknown. -/
theorem classifier_monotonic (companies : List Company) (nowYear : Nat)
    (user_input : String) (chat_history : List Msg)
    (h : (detect_intent_and_route companies nowYear user_input chat_history).1
      ≠ "unknown") :
    is_financial_query true companies nowYear user_input chat_history = true := by
  have hb : ((detect_intent_and_route companies nowYear user_input chat_history).1
      != "unknown") = true := bne_iff_ne.mpr h
  simp [is_financial_query, hb]

/-- Witness for `classifier_monotonic` at "top 5 saham". -/
theorem classifier_monotonic_witness :
    is_financial_query true [] 2024 "top 5 saham" [] = true :=
  classifier_monotonic [] 2024 "top 5 saham" [] (by decide)

/-- C10: `detect_intent_and_route` never returns the tag
`idx_market_cap_history`; its range is the other nine listed tags, so
the `idx_market_cap_history` branch of `execute_tool` is unreachable
through routing. -/
theorem detect_never_idx_history (companies : List Company) (nowYear : Nat)
    (user_input : String) (chat_history : List Msg) :
    (detect_intent_and_route companies nowYear user_input chat_history).1
        ≠ "idx_market_cap_history" ∧
    (detect_intent_and_route companies nowYear user_input chat_history).1 ∈
      ["stock_info", "quarterly_financials", "company_segments", "market_news",
       "top_market_cap", "companies_by_index", "companies_subsector",
       "subsector_report", "unknown"] := by
  have hmem : (detect_intent_and_route companies nowYear user_input chat_history).1 ∈
      ["stock_info", "quarterly_financials", "company_segments", "market_news",
       "top_market_cap", "companies_by_index", "companies_subsector",
       "subsector_report", "unknown"] := by
    unfold detect_intent_and_route
    dsimp only
    repeat' split
    all_goals simp
  exact ⟨fun heq => absurd (heq ▸ hmem) (by decide), hmem⟩

/-- C3 (amended): every text routed to `top_market_cap` carries
`limit = min(first integer literal, 50)`, defaulting to 5 when the text
has no integer literal — the router caps at 50 but never floors at 1;
the floor is applied inside `get_top_stocks_by_market_cap`, whose
`max(1, min(limit, 50))` clamp brings the effective count to the
claimed [1,50] clamp of the requested number. -/
theorem top_market_cap_limit_amended (companies : List Company) (nowYear : Nat)
    (text : String) (chat_history : List Msg) (ps : Params)
    (h : detect_intent_and_route companies nowYear text chat_history
      = ("top_market_cap", ps)) :
    ps = [("limit", PVal.num (routedTopLimit text))] ∧
    topToolLimitClamp (routedTopLimit text) = specClampedLimit text := by
  constructor
  · unfold detect_intent_and_route at h
    dsimp only at h
    repeat' split at h
    all_goals simp_all [routedTopLimit]
  · unfold topToolLimitClamp specClampedLimit routedTopLimit
    cases hfi : findFirstInt text.toList with
    | none => simp
    | some n => push_cast; omega

/-- Witness for `top_market_cap_limit_amended` at "top 10 saham". -/
theorem top_market_cap_limit_amended_witness :
    [("limit", PVal.num 10)] = [("limit", PVal.num (routedTopLimit "top 10 saham"))] ∧
    topToolLimitClamp (routedTopLimit "top 10 saham")
      = specClampedLimit "top 10 saham" :=
  top_market_cap_limit_amended [] 2024 "top 10 saham" []
    [("limit", PVal.num 10)] (by decide)

/-- C8: `execute_tool` is total and never propagates an exception: a tag
outside the fixed dispatch table yields `None`, and when the dispatched
operation raises, the `try`/`except` converts the exception to `None`. -/
theorem execute_tool_isolation (tools : ToolSet) (intent : String)
    (params : Params) :
    (dispatchFor tools intent = none → execute_tool tools intent params = none) ∧
    (∀ op e, dispatchFor tools intent = some op → op params = Except.error e →
      execute_tool tools intent params = none) := by
  constructor
  · intro h
    unfold execute_tool
    rw [h]
  · intro op e hop herr
    simp only [execute_tool, hop, herr]

/-- A tool set whose every operation raises; used to witness the
error-isolation theorems. -/
def failTools : ToolSet where
  get_stock_info := fun _ => .error "boom"
  get_quarterly_financials := fun _ => .error "boom"
  get_company_segments := fun _ => .error "boom"
  get_market_news := fun _ => .error "boom"
  get_top_stocks_by_market_cap := fun _ => .error "boom"
  get_companies_by_index := fun _ => .error "boom"
  get_companies_by_subsector := fun _ => .error "boom"
  get_subsector_report := fun _ => .error "boom"
  get_idx_market_cap_history := fun _ => .error "boom"

/-- Witness for `execute_tool_isolation`: an unknown tag and a raising
dispatched operation both yield `None`. -/
theorem execute_tool_isolation_witness :
    execute_tool failTools "make_coffee" [] = none ∧
    execute_tool failTools "stock_info" [] = none :=
  ⟨(execute_tool_isolation failTools "make_coffee" []).1 rfl,
   (execute_tool_isolation failTools "stock_info" []).2
     failTools.get_stock_info "boom" rfl rfl⟩

/-- C2: if the Tool Executor's result for the tag routed from the
(resolved) input is absent or an error-marker string starting with "❌",
then `run_agent` returns absent, signalling the plain-chat fallback —
for every input, history, RAG context, cache state, wall-clock year and
every behaviour of the tool and LLM oracles. -/
theorem run_agent_fallback_on_tool_failure (companies : List Company)
    (nowYear : Nat) (tools : ToolSet)
    (resolver : String → List Msg → Except String String)
    (narrator : String → String → String → String → List Msg → Except String String)
    (user_input : String) (chat_history : List Msg) (rag_context : String)
    (intent : String) (ps : Params)
    (hroute : detect_intent_and_route companies nowYear
      (resolve_query_with_context resolver user_input chat_history) chat_history
        = (intent, ps))
    (h : execute_tool tools intent ps = none ∨
      ∃ s, execute_tool tools intent ps = some s ∧ pyStartsWith s "❌" = true) :
    run_agent companies nowYear tools resolver narrator user_input chat_history
      rag_context = none := by
  unfold run_agent
  dsimp only
  rw [hroute]
  rcases h with hnone | ⟨s, hs, hpre⟩
  · dsimp only
    rw [hnone]
    split <;> rfl
  · dsimp only
    simp only [hs, hpre]
    split <;> simp

/-- A resolver oracle that echoes the query, and a narrator oracle with
a constant reply; used to witness the fallback theorem. -/
def echoResolver : String → List Msg → Except String String :=
  fun q _ => .ok q

def constNarrator : String → String → String → String → List Msg →
    Except String String :=
  fun _ _ _ _ _ => .ok "ok"

/-- Witness for `run_agent_fallback_on_tool_failure`: "halo" routes to
`stock_info` (ticker "HALO"), the tool raises, and the agent returns
`None`. -/
theorem run_agent_fallback_witness :
    run_agent [] 2024 failTools echoResolver constNarrator "halo" [] "" = none :=
  run_agent_fallback_on_tool_failure [] 2024 failTools echoResolver constNarrator
    "halo" [] "" "stock_info" [("ticker", PVal.str "HALO")]
    (by decide) (Or.inl (by decide))
